import Mathlib

/-!
Verification of the query-builder core of the ministry-data-search portal.

The Lean definitions below are a shallow embedding of the Python source:

* `run_search` embeds `run_search` of `src/app.py` (lines 779-835): it builds
  the parameterized search query for one table from the current filter
  selection, returning the query text together with the ordered list of bound
  query parameters, or an error when a fiscal-year value is not numeric.
* `run_search_ministry` embeds the first `run_search` variant of
  `src/unnamed/part_000` (lines 173-224), which filters on `ministry` and has
  no agency or council dimension.
* `tabPlan` embeds the per-table dispatch of `main_app` in `src/app.py`
  (lines 991-1008).
* `check_credentials_bigquery` and `authLookup` embed the credential check of
  `src/app.py` (lines 140-178) together with the semantics of its lookup query.
* `generate_password` embeds `generate_password` of `src/app.py`
  (lines 216-232), with the random draws and the final shuffle made explicit.

Query execution itself is an external collaborator (BigQuery); the embedding
covers exactly the pure query construction, the caller dispatch and the pure
post-processing that the source performs.
-/

set_option maxRecDepth 16384
set_option maxHeartbeats 1000000

namespace MinistrySearch

/-- Error raised by the builder when a user-supplied filter value is
malformed; in the source this surfaces as the `ValueError` escaping
`int(y)` in `run_search`, named `InvalidFilterValue` by the specification. -/
inductive BuilderError where
  | invalidFilterValue
  deriving Repr, DecidableEq

/-- A BigQuery query parameter as produced by the source:
`bigquery.ScalarQueryParameter(name, "STRING", value)`,
`bigquery.ArrayQueryParameter(name, "STRING", values)` or
`bigquery.ArrayQueryParameter(name, "INT64", values)`. -/
inductive QueryParameter where
  | scalarStr (name : String) (value : String)
  | arrayStr (name : String) (values : List String)
  | arrayInt (name : String) (values : List Int)
  deriving Repr, DecidableEq

/-- The name under which a parameter is bound (the placeholder it resolves). -/
def QueryParameter.name : QueryParameter → String
  | .scalarStr n _ => n
  | .arrayStr n _ => n
  | .arrayInt n _ => n

/-- A logical searchable table: dataset, table and the ordered mapping from
internal column name to display label (an entry of `TABLE_CONFIGS` in
`src/app.py`, with dataset and table names taken from configuration). -/
structure TableSpec where
  dataset : String
  table : String
  columns : List (String × String)
  deriving Repr, DecidableEq

/-- Column mapping of the budget table (`TABLE_CONFIGS["予算"]["columns"]`). -/
def budgetColumns : List (String × String) :=
  [("file_id", "ファイルID"), ("title", "資料名"), ("ministry", "省庁"),
   ("agency", "本局/外局"), ("fiscal_year_start", "年度"), ("category", "カテゴリ"),
   ("sub_category", "資料形式"), ("file_page", "ページ"), ("source_url", "URL"),
   ("content_text", "本文")]

/-- Column mapping of the council-document table
(`TABLE_CONFIGS["会議資料"]["columns"]`). -/
def councilColumns : List (String × String) :=
  [("file_id", "ファイルID"), ("title", "資料名"), ("ministry", "省庁"),
   ("agency", "本局/外局"), ("council", "会議体名"), ("fiscal_year_start", "年度"),
   ("category", "カテゴリ"), ("sub_category", "資料形式"), ("file_page", "ページ"),
   ("source_url", "URL"), ("content_text", "本文")]

/-- The budget `TableSpec`, with configuration-supplied dataset and table. -/
def budgetTableSpec (dataset table : String) : TableSpec :=
  ⟨dataset, table, budgetColumns⟩

/-- The council-document `TableSpec`. -/
def councilTableSpec (dataset table : String) : TableSpec :=
  ⟨dataset, table, councilColumns⟩

/-- Numeric value of a list of decimal digit characters; `none` when the list
is empty or contains a non-digit. -/
def digitsVal (cs : List Char) : Option Nat :=
  if cs.isEmpty then none
  else if cs.all Char.isDigit then
    some (cs.foldl (fun a c => 10 * a + (c.toNat - 48)) 0)
  else none

/-- Python whitespace characters accepted by `int` around the digits. -/
def isPySpace (c : Char) : Bool :=
  c = ' ' || c = '\t' || c = '\n' || c = '\r'

/-- Models Python `int(s)` on a decimal string: optional surrounding
whitespace, an optional sign, then one or more ASCII digits; any other
shape raises `ValueError`, modelled as `none`. -/
def pyInt (s : String) : Option Int :=
  let cs := ((s.toList.dropWhile isPySpace).reverse.dropWhile isPySpace).reverse
  match cs with
  | '-' :: rest => (digitsVal rest).map (fun n => -(n : Int))
  | '+' :: rest => (digitsVal rest).map (fun n => (n : Int))
  | rest => (digitsVal rest).map (fun n => (n : Int))

/-- Lowercasing of one character, as Python `str.lower()` acts on the
characters appearing in this application: an ASCII capital letter is mapped
to its small form and every other character (digits, punctuation, Japanese
text) is unchanged. -/
def lowerChar (c : Char) : Char :=
  if 'A' ≤ c ∧ c ≤ 'Z' then Char.ofNat (c.toNat + 32) else c

/-- Python `s.lower()`, character by character. -/
def lowerStr (s : String) : String :=
  String.mk (s.data.map lowerChar)

/-- The `base_query` f-string of `run_search` in `src/app.py`: SELECT of the
declared internal columns joined by `", "`, FROM the fully qualified table. -/
def base_query (project : String) (ts : TableSpec) : String :=
  "\n        SELECT \n            " ++
    String.intercalate ", " (ts.columns.map Prod.fst) ++
    "\n        FROM `" ++ project ++ "." ++ ts.dataset ++ "." ++ ts.table ++ "`\n    "

/-- The list comprehension `[int(y) for y in years]`: every element is
coerced in order, and the whole computation raises (`none`) as soon as one
element is non-numeric. -/
def pyIntList : List String → Option (List Int)
  | [] => some []
  | y :: t =>
      match pyInt y with
      | none => none
      | some n => (pyIntList t).map (fun ns => n :: ns)

/-- The fiscal-year filter step of `run_search`: when the selection is
non-empty every value is coerced with `int(y)`; a non-numeric value raises
before any query is produced.  Returns the contributed condition strings and
parameters. -/
def yearsClauseStep (years : List String) :
    Except BuilderError (List String × List QueryParameter) :=
  if years.isEmpty then .ok ([], [])
  else
    match pyIntList years with
    | none => .error .invalidFilterValue
    | some int_years =>
        .ok (["fiscal_year_start IN UNNEST(@years)"],
             [QueryParameter.arrayInt "years" int_years])

/-- Embedding of `run_search` from `src/app.py` (lines 779-835): the pure
query-construction part, returning the final query text and the ordered
parameter list.  Each filter contributes its condition and parameter exactly
when the corresponding selection is non-empty (Python truthiness); conditions
are joined with `" AND "` after `" WHERE "`, and the fixed ORDER BY clause is
always appended. -/
def run_search (project : String) (ts : TableSpec) (keyword : String)
    (agencies councils categories sub_categories years : List String) :
    Except BuilderError (String × List QueryParameter) := do
  let wc_a : List String :=
    if agencies.isEmpty then [] else ["agency IN UNNEST(@agencies)"]
  let qp_a : List QueryParameter :=
    if agencies.isEmpty then [] else [.arrayStr "agencies" agencies]
  let wc_co : List String :=
    if councils.isEmpty then [] else ["council IN UNNEST(@councils)"]
  let qp_co : List QueryParameter :=
    if councils.isEmpty then [] else [.arrayStr "councils" councils]
  let wc_ca : List String :=
    if categories.isEmpty then [] else ["category IN UNNEST(@categories)"]
  let qp_ca : List QueryParameter :=
    if categories.isEmpty then [] else [.arrayStr "categories" categories]
  let wc_s : List String :=
    if sub_categories.isEmpty then [] else ["sub_category IN UNNEST(@sub_categories)"]
  let qp_s : List QueryParameter :=
    if sub_categories.isEmpty then [] else [.arrayStr "sub_categories" sub_categories]
  let (wc_y, qp_y) ← yearsClauseStep years
  let wc_k : List String :=
    if keyword.isEmpty then []
    else ["(LOWER(title) LIKE @keyword OR LOWER(content_text) LIKE @keyword)"]
  let qp_k : List QueryParameter :=
    if keyword.isEmpty then []
    else [.scalarStr "keyword" ("%" ++ lowerStr keyword ++ "%")]
  let where_conditions := wc_a ++ wc_co ++ wc_ca ++ wc_s ++ wc_y ++ wc_k
  let query_params := qp_a ++ qp_co ++ qp_ca ++ qp_s ++ qp_y ++ qp_k
  let final_query :=
    (if where_conditions.isEmpty then base_query project ts
     else base_query project ts ++ " WHERE " ++
       String.intercalate " AND " where_conditions) ++
    " ORDER BY ministry, agency, category, fiscal_year_start"
  return (final_query, query_params)

/-- Embedding of the first `run_search` variant of `src/unnamed/part_000`
(lines 173-224): fixed column list, `ministry` membership instead of
agency/council, and an ORDER BY without the agency column. -/
def run_search_ministry (project dataset table : String) (keyword : String)
    (ministries categories sub_categories years : List String) :
    Except BuilderError (String × List QueryParameter) := do
  let base :=
    "\n        SELECT \n            file_id, title, ministry, fiscal_year_start, category, \n            sub_category, file_page, source_url, content_text\n        FROM `"
      ++ project ++ "." ++ dataset ++ "." ++ table ++ "`\n    "
  let wc_m : List String :=
    if ministries.isEmpty then [] else ["ministry IN UNNEST(@ministries)"]
  let qp_m : List QueryParameter :=
    if ministries.isEmpty then [] else [.arrayStr "ministries" ministries]
  let wc_ca : List String :=
    if categories.isEmpty then [] else ["category IN UNNEST(@categories)"]
  let qp_ca : List QueryParameter :=
    if categories.isEmpty then [] else [.arrayStr "categories" categories]
  let wc_s : List String :=
    if sub_categories.isEmpty then [] else ["sub_category IN UNNEST(@sub_categories)"]
  let qp_s : List QueryParameter :=
    if sub_categories.isEmpty then [] else [.arrayStr "sub_categories" sub_categories]
  let (wc_y, qp_y) ← yearsClauseStep years
  let wc_k : List String :=
    if keyword.isEmpty then []
    else ["(LOWER(title) LIKE @keyword OR LOWER(content_text) LIKE @keyword)"]
  let qp_k : List QueryParameter :=
    if keyword.isEmpty then []
    else [.scalarStr "keyword" ("%" ++ lowerStr keyword ++ "%")]
  let where_conditions := wc_m ++ wc_ca ++ wc_s ++ wc_y ++ wc_k
  let query_params := qp_m ++ qp_ca ++ qp_s ++ qp_y ++ qp_k
  let final_query :=
    (if where_conditions.isEmpty then base
     else base ++ " WHERE " ++ String.intercalate " AND " where_conditions) ++
    " ORDER BY ministry, category, fiscal_year_start"
  return (final_query, query_params)

/-! ## Flag abstraction of the query text

Modelled from the spec: the specification states that the query text is a
function only of the `TableSpec` and of which filter dimensions are
non-empty, never of the filter values themselves.  The following definitions
spell that function out so the builder can be compared against it. -/

/-- Which filter dimensions of a `FilterSelection` are non-empty. -/
structure Flags where
  agencies : Bool
  councils : Bool
  categories : Bool
  sub_categories : Bool
  years : Bool
  keyword : Bool
  deriving Repr, DecidableEq

/-- Modelled from the spec: the WHERE-clause fragments of the query as a
function of the non-emptiness flags alone. -/
def specWhereClauses (f : Flags) : List String :=
  (if f.agencies then ["agency IN UNNEST(@agencies)"] else []) ++
  (if f.councils then ["council IN UNNEST(@councils)"] else []) ++
  (if f.categories then ["category IN UNNEST(@categories)"] else []) ++
  (if f.sub_categories then ["sub_category IN UNNEST(@sub_categories)"] else []) ++
  (if f.years then ["fiscal_year_start IN UNNEST(@years)"] else []) ++
  (if f.keyword then
    ["(LOWER(title) LIKE @keyword OR LOWER(content_text) LIKE @keyword)"] else [])

/-- Modelled from the spec: the names of the bound parameters as a function
of the non-emptiness flags alone. -/
def specParamNames (f : Flags) : List String :=
  (if f.agencies then ["agencies"] else []) ++
  (if f.councils then ["councils"] else []) ++
  (if f.categories then ["categories"] else []) ++
  (if f.sub_categories then ["sub_categories"] else []) ++
  (if f.years then ["years"] else []) ++
  (if f.keyword then ["keyword"] else [])

/-- Modelled from the spec: the full query text as a function of the
`TableSpec` and the non-emptiness flags alone. -/
def specQueryText (project : String) (ts : TableSpec) (f : Flags) : String :=
  (if (specWhereClauses f).isEmpty then base_query project ts
   else base_query project ts ++ " WHERE " ++
     String.intercalate " AND " (specWhereClauses f)) ++
  " ORDER BY ministry, agency, category, fiscal_year_start"

/-- The non-emptiness flags of a concrete selection (Python truthiness of
each argument of `run_search`). -/
def flagsOf (keyword : String)
    (agencies councils categories sub_categories years : List String) : Flags :=
  ⟨!agencies.isEmpty, !councils.isEmpty, !categories.isEmpty,
   !sub_categories.isEmpty, !years.isEmpty, !keyword.isEmpty⟩

/-! ## Caller dispatch across tables -/

/-- What `main_app` in `src/app.py` (lines 991-1008) does for one tab of
`TABLE_CONFIGS`: either it skips the tab entirely, storing an empty result
without calling `run_search`, or it calls `run_search` with the given council
selection. -/
inductive TabAction where
  | skippedEmpty
  | search (councils_for_search : List String)
  deriving Repr, DecidableEq

/-- Embedding of the per-tab dispatch in `main_app` (`src/app.py` lines
991-1008): a tab named `予算` is skipped with an empty result whenever the
council selection is non-empty; otherwise `run_search` is invoked, with the
council selection passed through only for the `会議資料` tab. -/
def tabPlan (councils : List String) (tab_name : String) : TabAction :=
  if !councils.isEmpty && tab_name = "予算" then .skippedEmpty
  else .search (if tab_name = "会議資料" then councils else [])

/-- The whole search fan-out over `TABLE_CONFIGS` (iteration order `予算`,
`会議資料`). -/
def mainSearchPlan (councils : List String) : List (String × TabAction) :=
  ["予算", "会議資料"].map (fun t => (t, tabPlan councils t))

/-! ## Credential check -/

/-- A row of the authentication table as read by
`check_credentials_bigquery`; `is_admin` is nullable in the store. -/
structure AuthRow where
  id : String
  pw : String
  is_alive : Bool
  is_admin : Option Bool
  deriving Repr, DecidableEq

/-- Semantics of the lookup query issued by `check_credentials_bigquery`:
rows whose `id` and `pw` equal the bound parameters and whose `is_alive` is
true, truncated by `LIMIT 1`; `IFNULL(is_admin, FALSE)` is applied when the
row is read. -/
def authLookup (table : List AuthRow) (user_id password : String) : List AuthRow :=
  (table.filter (fun r => r.id = user_id && r.pw = password && r.is_alive)).take 1

/-- Embedding of `check_credentials_bigquery` from `src/app.py` (lines
140-178).  The argument is the outcome of the lookup: either the returned
rows or an exception raised anywhere during the query.  On an exception the
function reports the error and returns `(False, False)`; on an empty result
it returns `(False, False)`; otherwise `(True, bool(is_admin))` of the first
row, with `IFNULL(is_admin, FALSE)`. -/
def check_credentials_bigquery (outcome : Except String (List AuthRow)) :
    Bool × Bool :=
  match outcome with
  | .error _ => (false, false)
  | .ok results =>
      match results with
      | [] => (false, false)
      | r :: _ => (true, r.is_admin.getD false)

/-! ## Password generation -/

/-- `string.ascii_uppercase`. -/
def ascii_uppercase : List Char := "ABCDEFGHIJKLMNOPQRSTUVWXYZ".toList

/-- `string.ascii_lowercase`. -/
def ascii_lowercase : List Char := "abcdefghijklmnopqrstuvwxyz".toList

/-- `string.digits`. -/
def ascii_digits : List Char := "0123456789".toList

/-- The pool `string.ascii_uppercase + string.ascii_lowercase + string.digits`
from which the five remaining characters are drawn. -/
def passwordPool : List Char := ascii_uppercase ++ ascii_lowercase ++ ascii_digits

/-- Embedding of `generate_password` from `src/app.py` (lines 216-232) up to
the final `random.shuffle`: one uppercase draw, one lowercase draw, one digit
draw and five draws from the combined pool, concatenated in source order.
The random indices are explicit arguments; the shuffle is modelled in the
theorems as an arbitrary permutation of this list. -/
def generate_password (u : Fin 26) (l : Fin 26) (d : Fin 10)
    (rem : Fin 5 → Fin 62) : List Char :=
  [ascii_uppercase.get (Fin.cast rfl u), ascii_lowercase.get (Fin.cast rfl l),
   ascii_digits.get (Fin.cast rfl d)] ++
  (List.ofFn rem).map (fun i => passwordPool.get (Fin.cast rfl i))

/-! ## Keyword matching -/

/-- Membership test for a substring: `hasSubList needle hay` is true exactly
when `needle` occurs contiguously inside `hay`. -/
def hasSubList (needle : List Char) : List Char → Bool
  | [] => needle.isEmpty
  | a :: t => needle.isPrefixOf (a :: t) || hasSubList needle t

/-- String-level substring test. -/
def strContains (hay needle : String) : Bool :=
  hasSubList needle.toList hay.toList

/-- Row-level meaning of the keyword condition the source emits:
`(LOWER(title) LIKE @keyword OR LOWER(content_text) LIKE @keyword)` with the
parameter bound to `%keyword.lower()%`.  For a pattern `%x%` in which `x`
contains no LIKE metacharacter this is exactly a substring test of `x`
against each lowered field. -/
def codeKeywordMatches (keyword title content : String) : Bool :=
  strContains (lowerStr title) (lowerStr keyword) ||
  strContains (lowerStr content) (lowerStr keyword)

/-- Splitting a character list on runs of whitespace, accumulating the
current token in reverse. -/
def wsSplit (acc : List Char) : List Char → List (List Char)
  | [] => if acc.isEmpty then [] else [acc.reverse]
  | c :: rest =>
      if isPySpace c then
        (if acc.isEmpty then wsSplit [] rest
         else acc.reverse :: wsSplit [] rest)
      else wsSplit (c :: acc) rest

/-- Modelled from the spec: whitespace tokenization of a keyword input
(Python `str.split()` on the raw keyword string: maximal runs of
non-whitespace characters, empty tokens dropped). -/
def tokenize (s : String) : List String :=
  (wsSplit [] s.data).map String.mk

/-- One token matching a row: case-insensitive substring of the title field
or of the content field. -/
def rowSub (title content token : String) : Bool :=
  strContains (lowerStr title) (lowerStr token) ||
  strContains (lowerStr content) (lowerStr token)

/-- Modelled from the spec: the row predicate of the keyword-AND mode —
every whitespace token of the keyword input must independently match the
title or the content as a case-insensitive substring. -/
def keywordAndSpecMatches (keyword title content : String) : Bool :=
  (tokenize keyword).all (rowSub title content)

/-- Modelled from the spec: the clause descriptors of the AND/OR keyword
builder, which exists only in repository variants not included under `src/`.
Each AND token is its own clause; all OR tokens form one parenthesized
clause. -/
inductive KeywordClause where
  | andToken (token : String)
  | orGroup (tokens : List String)
  deriving Repr, DecidableEq

/-- Modelled from the spec: the keyword clause list built from the raw
`keyword_and` and `keyword_or` inputs — one clause per AND token, plus a
single OR-group clause when the OR input has tokens; the clause list is
joined with logical AND. -/
def buildKeywordClauses (keyword_and keyword_or : String) : List KeywordClause :=
  (tokenize keyword_and).map .andToken ++
  (if (tokenize keyword_or).isEmpty then []
   else [.orGroup (tokenize keyword_or)])

/-- Row-level evaluation of one keyword clause. -/
def evalKeywordClause (title content : String) : KeywordClause → Bool
  | .andToken t => rowSub title content t
  | .orGroup ts => ts.any (rowSub title content)

/-- Modelled from the spec: a row matches the combined keyword condition
when every clause of the built clause list holds (AND-join across clauses). -/
def keywordRowMatches (keyword_and keyword_or title content : String) : Bool :=
  (buildKeywordClauses keyword_and keyword_or).all (evalKeywordClause title content)

/-! ## Helper lemmas -/

/-- Shape of a successful fiscal-year step: either the selection was empty
and nothing was contributed, or every value parsed as an integer and exactly
the one clause and one INT64 array parameter were contributed. -/
theorem yearsClauseStep_ok {y : List String} {p : List String × List QueryParameter}
    (h : yearsClauseStep y = .ok p) :
    (y.isEmpty = true ∧ p = ([], [])) ∨
    (y.isEmpty = false ∧ ∃ iy, pyIntList y = some iy ∧
      p = (["fiscal_year_start IN UNNEST(@years)"],
           [QueryParameter.arrayInt "years" iy])) := by
  unfold yearsClauseStep at h
  by_cases hy : y.isEmpty
  · left
    simp [hy] at h
    exact ⟨by simpa using hy, h.symm⟩
  · right
    simp [hy] at h
    cases hm : pyIntList y with
    | none => rw [hm] at h; exact absurd h (by simp)
    | some iy =>
        rw [hm] at h
        simp at h
        exact ⟨by simpa using hy, iy, rfl, h.symm⟩

/-- `run_search` pushed through a successful fiscal-year step: the result is
the assembled query and parameter list, written out explicitly. -/
theorem run_search_eq_of_years {y : List String}
    {wcy : List String} {qpy : List QueryParameter}
    (proj : String) (ts : TableSpec) (kw : String)
    (a c g s : List String)
    (hy : yearsClauseStep y = .ok (wcy, qpy)) :
    run_search proj ts kw a c g s y =
      .ok (
        (if ((if a.isEmpty then [] else ["agency IN UNNEST(@agencies)"]) ++
             (if c.isEmpty then [] else ["council IN UNNEST(@councils)"]) ++
             (if g.isEmpty then [] else ["category IN UNNEST(@categories)"]) ++
             (if s.isEmpty then [] else ["sub_category IN UNNEST(@sub_categories)"]) ++
             wcy ++
             (if kw.isEmpty then []
              else ["(LOWER(title) LIKE @keyword OR LOWER(content_text) LIKE @keyword)"])).isEmpty
         then base_query proj ts
         else base_query proj ts ++ " WHERE " ++
           String.intercalate " AND "
             ((if a.isEmpty then [] else ["agency IN UNNEST(@agencies)"]) ++
              (if c.isEmpty then [] else ["council IN UNNEST(@councils)"]) ++
              (if g.isEmpty then [] else ["category IN UNNEST(@categories)"]) ++
              (if s.isEmpty then [] else ["sub_category IN UNNEST(@sub_categories)"]) ++
              wcy ++
              (if kw.isEmpty then []
               else ["(LOWER(title) LIKE @keyword OR LOWER(content_text) LIKE @keyword)"]))) ++
        " ORDER BY ministry, agency, category, fiscal_year_start",
        (if a.isEmpty then [] else [QueryParameter.arrayStr "agencies" a]) ++
        (if c.isEmpty then [] else [QueryParameter.arrayStr "councils" c]) ++
        (if g.isEmpty then [] else [QueryParameter.arrayStr "categories" g]) ++
        (if s.isEmpty then [] else [QueryParameter.arrayStr "sub_categories" s]) ++
        qpy ++
        (if kw.isEmpty then []
         else [QueryParameter.scalarStr "keyword" ("%" ++ lowerStr kw ++ "%")])) := by
  unfold run_search
  rw [hy]
  rfl

/-- A failing fiscal-year step makes `run_search` fail with the same error
before any query is produced. -/
theorem run_search_error_of_years {y : List String}
    (proj : String) (ts : TableSpec) (kw : String) (a c g s : List String)
    (hy : yearsClauseStep y = .error BuilderError.invalidFilterValue) :
    run_search proj ts kw a c g s y = .error .invalidFilterValue := by
  unfold run_search
  rw [hy]
  rfl

/-- The coercion of a year list fails as soon as one element fails. -/
theorem pyIntList_eq_none_of_mem {l : List String} {x : String}
    (hx : x ∈ l) (hf : pyInt x = none) : pyIntList l = none := by
  induction l with
  | nil => cases hx
  | cons a t ih =>
      rcases List.mem_cons.mp hx with rfl | hxt
      · simp [pyIntList, hf]
      · cases ha : pyInt a with
        | none => simp [pyIntList, ha]
        | some b => simp [pyIntList, ha, ih hxt]

/-- An occurrence of `t` inside `xs ++ ys` lies inside `xs`, inside `ys`, or
splits into a non-empty suffix of `xs` followed by a non-empty prefix of
`ys`. -/
theorem infix_append_cases {α : Type} {t xs ys : List α} (h : t <:+: xs ++ ys) :
    t <:+: xs ∨ t <:+: ys ∨
    ∃ t1 t2, t = t1 ++ t2 ∧ t1 ≠ [] ∧ t2 ≠ [] ∧ t1 <:+ xs ∧ t2 <+: ys := by
  obtain ⟨u, v, huv⟩ := h
  rw [List.append_assoc] at huv
  rcases List.append_eq_append_iff.mp huv with ⟨w, hxs, htv⟩ | ⟨w, hu, hys⟩
  · rcases List.append_eq_append_iff.mp htv with ⟨z, hw, hv⟩ | ⟨z, ht, hys2⟩
    · left
      exact ⟨u, z, by rw [hxs, hw, List.append_assoc]⟩
    · by_cases hwnil : w = []
      · subst hwnil
        right; left
        simp only [List.nil_append] at ht
        exact ⟨[], v, by simp [hys2, ht]⟩
      · by_cases hznil : z = []
        · subst hznil
          left
          simp only [List.append_nil] at ht
          exact ⟨u, [], by simp [hxs, ht]⟩
        · right; right
          exact ⟨w, z, ht, hwnil, hznil, ⟨u, hxs.symm⟩, ⟨v, hys2.symm⟩⟩
  · right; left
    exact ⟨w, v, by rw [hys, List.append_assoc]⟩

/-- When `xs` ends with a separator character that does not occur in `t`,
an occurrence of `t` in `xs ++ ys` cannot straddle the boundary. -/
theorem not_infix_append_of_sep {t xs ys : List Char}
    (hx : ¬ t <:+: xs) (hy : ¬ t <:+: ys)
    (hsp : ' ' ∉ t) (hend : ∃ zs, xs = zs ++ [' ']) :
    ¬ t <:+: xs ++ ys := by
  intro h
  rcases infix_append_cases h with h1 | h2 | ⟨t1, t2, ht, h1ne, h2ne, hsuf, hpre⟩
  · exact hx h1
  · exact hy h2
  · obtain ⟨p, hp⟩ := hsuf
    obtain ⟨zs, hzs⟩ := hend
    have hlast : t1.getLast h1ne = ' ' := by
      have e1 : xs.getLast? = some (t1.getLast h1ne) := by
        rw [← hp, List.getLast?_append, List.getLast?_eq_getLast t1 h1ne]
        rfl
      have e2 : xs.getLast? = some ' ' := by
        rw [hzs]
        exact List.getLast?_concat zs
      rw [e1] at e2
      exact (Option.some.injEq _ _).mp e2
    have hmem : ' ' ∈ t := by
      rw [ht]
      exact List.mem_append_left _ (hlast ▸ List.getLast_mem h1ne)
    exact hsp hmem

/-- Characterization of every successful run of the builder: the query text
is the flag-determined text and the bound parameter names are the
flag-determined names. -/
theorem run_search_ok_char {proj : String} {ts : TableSpec} {kw : String}
    {a c g s y : List String} {q : String} {ps : List QueryParameter}
    (h : run_search proj ts kw a c g s y = .ok (q, ps)) :
    q = specQueryText proj ts (flagsOf kw a c g s y) ∧
    ps.map QueryParameter.name = specParamNames (flagsOf kw a c g s y) := by
  cases hys : yearsClauseStep y with
  | error e =>
      cases e
      rw [run_search_error_of_years proj ts kw a c g s hys] at h
      exact absurd h (by simp)
  | ok p =>
      obtain ⟨wcy, qpy⟩ := p
      rw [run_search_eq_of_years proj ts kw a c g s hys] at h
      simp only [Except.ok.injEq, Prod.mk.injEq] at h
      obtain ⟨hq, hps⟩ := h
      rcases yearsClauseStep_ok hys with ⟨hye, hp⟩ | ⟨hye, iy, hmap, hp⟩ <;>
        injection hp with hp1 hp2 <;> subst hp1 <;> subst hp2 <;>
        subst hq <;> subst hps <;>
        cases ha : a.isEmpty <;> cases hc : c.isEmpty <;> cases hg : g.isEmpty <;>
        cases hs2 : s.isEmpty <;> cases hk : kw.isEmpty <;>
        simp [specQueryText, specWhereClauses, specParamNames, flagsOf,
          ha, hc, hg, hs2, hk, hye, QueryParameter.name]

/-- The ministry-table variant pushed through a successful fiscal-year
step. -/
theorem run_search_ministry_eq_of_years {y : List String}
    {wcy : List String} {qpy : List QueryParameter}
    (proj ds tb kw : String) (m c s : List String)
    (hy : yearsClauseStep y = .ok (wcy, qpy)) :
    run_search_ministry proj ds tb kw m c s y =
      .ok (
        (if ((if m.isEmpty then [] else ["ministry IN UNNEST(@ministries)"]) ++
             (if c.isEmpty then [] else ["category IN UNNEST(@categories)"]) ++
             (if s.isEmpty then [] else ["sub_category IN UNNEST(@sub_categories)"]) ++
             wcy ++
             (if kw.isEmpty then []
              else ["(LOWER(title) LIKE @keyword OR LOWER(content_text) LIKE @keyword)"])).isEmpty
         then
           "\n        SELECT \n            file_id, title, ministry, fiscal_year_start, category, \n            sub_category, file_page, source_url, content_text\n        FROM `"
             ++ proj ++ "." ++ ds ++ "." ++ tb ++ "`\n    "
         else
           ("\n        SELECT \n            file_id, title, ministry, fiscal_year_start, category, \n            sub_category, file_page, source_url, content_text\n        FROM `"
             ++ proj ++ "." ++ ds ++ "." ++ tb ++ "`\n    ") ++ " WHERE " ++
           String.intercalate " AND "
             ((if m.isEmpty then [] else ["ministry IN UNNEST(@ministries)"]) ++
              (if c.isEmpty then [] else ["category IN UNNEST(@categories)"]) ++
              (if s.isEmpty then [] else ["sub_category IN UNNEST(@sub_categories)"]) ++
              wcy ++
              (if kw.isEmpty then []
               else ["(LOWER(title) LIKE @keyword OR LOWER(content_text) LIKE @keyword)"]))) ++
        " ORDER BY ministry, category, fiscal_year_start",
        (if m.isEmpty then [] else [QueryParameter.arrayStr "ministries" m]) ++
        (if c.isEmpty then [] else [QueryParameter.arrayStr "categories" c]) ++
        (if s.isEmpty then [] else [QueryParameter.arrayStr "sub_categories" s]) ++
        qpy ++
        (if kw.isEmpty then []
         else [QueryParameter.scalarStr "keyword" ("%" ++ lowerStr kw ++ "%")])) := by
  unfold run_search_ministry
  rw [hy]
  rfl

/-- The ministry-table variant fails like the main builder when the
fiscal-year step fails. -/
theorem run_search_ministry_error_of_years {y : List String}
    (proj ds tb kw : String) (m c s : List String)
    (hy : yearsClauseStep y = .error BuilderError.invalidFilterValue) :
    run_search_ministry proj ds tb kw m c s y = .error .invalidFilterValue := by
  unfold run_search_ministry
  rw [hy]
  rfl

/-! ## Claims -/

/-- C1: for every table spec and every filter selection, the query text
produced by `run_search` contains no raw user-supplied value: it equals a
function of the `TableSpec` and of which filter dimensions are non-empty
alone, and every variable value is referenced through a named placeholder
whose name appears in the returned parameter list (the bound names are
likewise determined by the flags alone). -/
theorem c1_query_text_flag_determined {proj : String} {ts : TableSpec}
    {kw : String} {a c g s y : List String} {q : String}
    {ps : List QueryParameter}
    (h : run_search proj ts kw a c g s y = .ok (q, ps)) :
    q = specQueryText proj ts (flagsOf kw a c g s y) ∧
    ps.map QueryParameter.name = specParamNames (flagsOf kw a c g s y) :=
  run_search_ok_char h

/-- Witness for C1 at a concrete invocation: an agency filter plus a keyword,
run against the budget table. -/
theorem c1_query_text_flag_determined_witness :
    ∃ q ps, run_search "p" (budgetTableSpec "d" "t") "AI" ["金融庁"] [] [] [] []
        = Except.ok (q, ps) ∧
      q = specQueryText "p" (budgetTableSpec "d" "t")
            ⟨true, false, false, false, false, true⟩ ∧
      ps.map QueryParameter.name =
        specParamNames ⟨true, false, false, false, false, true⟩ := by
  have h := run_search_eq_of_years "p" (budgetTableSpec "d" "t") "AI"
    ["金融庁"] [] [] [] (rfl : yearsClauseStep [] = Except.ok ([], []))
  exact ⟨_, _, h, c1_query_text_flag_determined h⟩

/-- C2: the source does not tokenize the keyword input.  With the keyword
input `"AI 活用"` the builder binds a single parameter `%ai 活用%` instead of
one parameter per token, and a row whose title contains both tokens `AI` and
`活用` — which the claimed per-token AND predicate accepts — does not satisfy
the condition the builder actually emits, because the two tokens are not
adjacent in the title. -/
theorem c2_keyword_not_tokenized :
    (∃ q, run_search "p" (budgetTableSpec "d" "t") "AI 活用" [] [] [] [] [] =
        Except.ok (q, [QueryParameter.scalarStr "keyword" "%ai 活用%"])) ∧
    keywordAndSpecMatches "AI 活用" "活用したAI" "" = true ∧
    codeKeywordMatches "AI 活用" "活用したAI" "" = false := by
  have h := run_search_eq_of_years "p" (budgetTableSpec "d" "t") "AI 活用"
    [] [] [] [] (rfl : yearsClauseStep [] = Except.ok ([], []))
  have h2 : run_search "p" (budgetTableSpec "d" "t") "AI 活用" [] [] [] [] [] =
      Except.ok
        (specQueryText "p" (budgetTableSpec "d" "t")
          ⟨false, false, false, false, false, true⟩,
         [QueryParameter.scalarStr "keyword" "%ai 活用%"]) := by
    rw [h]
    rfl
  exact ⟨⟨_, h2⟩, by decide, by decide⟩

/-- C3: in the spec-modelled AND/OR keyword builder, a non-empty OR input
yields exactly one OR-group clause holding all OR tokens, and a row matches
the combined condition exactly when it matches every AND token and at least
one OR token (the two groups are joined with logical AND). -/
theorem c3_keyword_or_single_group (ka ko title content : String)
    (h : tokenize ko ≠ []) :
    buildKeywordClauses ka ko =
      (tokenize ka).map KeywordClause.andToken ++
        [KeywordClause.orGroup (tokenize ko)] ∧
    keywordRowMatches ka ko title content =
      ((tokenize ka).all (rowSub title content) &&
       (tokenize ko).any (rowSub title content)) := by
  have he : (tokenize ko).isEmpty = false := by
    simpa [List.isEmpty_iff] using h
  have hall : ∀ l : List String,
      (l.map KeywordClause.andToken).all (evalKeywordClause title content) =
        l.all (rowSub title content) := by
    intro l
    induction l with
    | nil => rfl
    | cons x t ih => simp [evalKeywordClause, ih]
  constructor
  · simp [buildKeywordClauses, he]
  · simp [keywordRowMatches, buildKeywordClauses, he, evalKeywordClause, hall]

/-- Witness for C3: AND group `AI`, OR group `教育 医療`; a row whose title
contains `AI` and `教育` matches, a row containing only `AI` does not. -/
theorem c3_keyword_or_single_group_witness :
    (buildKeywordClauses "AI" "教育 医療" =
      [KeywordClause.andToken "AI",
       KeywordClause.orGroup ["教育", "医療"]] ∧
     keywordRowMatches "AI" "教育 医療" "AIと教育" "" =
      (["AI"].all (rowSub "AIと教育" "") &&
       ["教育", "医療"].any (rowSub "AIと教育" ""))) ∧
    keywordRowMatches "AI" "教育 医療" "AIと教育" "" = true ∧
    keywordRowMatches "AI" "教育 医療" "AIのみ" "" = false :=
  ⟨c3_keyword_or_single_group "AI" "教育 医療" "AIと教育" "" (by decide),
   by decide, by decide⟩

/-- C4: fiscal-year values are coerced to integers before binding — the
selection `["2021", "2022"]` is bound as the INT64 array `[2021, 2022]` —
and any selection containing the non-numeric value `"abc"` makes the builder
fail with `InvalidFilterValue` before producing any query output. -/
theorem c4_years_coerced_to_int :
    (∀ (proj : String) (ts : TableSpec) (kw : String) (a c g s : List String),
      ∃ q ps, run_search proj ts kw a c g s ["2021", "2022"] = .ok (q, ps) ∧
        QueryParameter.arrayInt "years" [2021, 2022] ∈ ps) ∧
    (∀ (proj : String) (ts : TableSpec) (kw : String) (a c g s ys : List String),
      "abc" ∈ ys →
        run_search proj ts kw a c g s ys = .error .invalidFilterValue) := by
  constructor
  · intro proj ts kw a c g s
    have hy : yearsClauseStep ["2021", "2022"] =
        .ok (["fiscal_year_start IN UNNEST(@years)"],
             [QueryParameter.arrayInt "years" [2021, 2022]]) := by rfl
    exact ⟨_, _, run_search_eq_of_years proj ts kw a c g s hy, by simp⟩
  · intro proj ts kw a c g s ys hm
    have h1 : pyIntList ys = none :=
      pyIntList_eq_none_of_mem hm (by rfl)
    have h2 : ys.isEmpty = false := by
      cases ys with
      | nil => cases hm
      | cons _ _ => rfl
    have h3 : yearsClauseStep ys = .error .invalidFilterValue := by
      simp [yearsClauseStep, h2, h1]
    exact run_search_error_of_years proj ts kw a c g s h3

/-- Witness for C4: the numeric selection succeeds with the integer array
bound, and the selection `["abc"]` fails with `InvalidFilterValue`. -/
theorem c4_years_coerced_to_int_witness :
    (∃ q ps, run_search "p" (budgetTableSpec "d" "t") "" [] [] [] []
        ["2021", "2022"] = .ok (q, ps) ∧
      QueryParameter.arrayInt "years" [2021, 2022] ∈ ps) ∧
    run_search "p" (budgetTableSpec "d" "t") "" [] [] [] [] ["abc"] =
      .error .invalidFilterValue :=
  ⟨c4_years_coerced_to_int.1 "p" (budgetTableSpec "d" "t") "" [] [] [] [],
   c4_years_coerced_to_int.2 "p" (budgetTableSpec "d" "t") "" [] [] [] [] ["abc"]
     (List.mem_singleton.mpr rfl)⟩

/-- C5: every query the builder produces ends with the deterministic
ascending ORDER BY clause — `(ministry, agency, category, fiscal_year_start)`
for the tables that carry an agency dimension, and
`(ministry, category, fiscal_year_start)` for the ministry-table variant
that has none. -/
theorem c5_order_by_deterministic :
    (∀ (proj : String) (ts : TableSpec) (kw : String)
       (a c g s y : List String) (q : String) (ps : List QueryParameter),
      run_search proj ts kw a c g s y = .ok (q, ps) →
        ∃ r, q = r ++ " ORDER BY ministry, agency, category, fiscal_year_start") ∧
    (∀ (proj ds tb kw : String) (m c s y : List String)
       (q : String) (ps : List QueryParameter),
      run_search_ministry proj ds tb kw m c s y = .ok (q, ps) →
        ∃ r, q = r ++ " ORDER BY ministry, category, fiscal_year_start") := by
  constructor
  · intro proj ts kw a c g s y q ps h
    obtain ⟨hq, -⟩ := run_search_ok_char h
    exact ⟨_, hq⟩
  · intro proj ds tb kw m c s y q ps h
    cases hys : yearsClauseStep y with
    | error e =>
        cases e
        rw [run_search_ministry_error_of_years proj ds tb kw m c s hys] at h
        exact absurd h (by simp)
    | ok p =>
        obtain ⟨wcy, qpy⟩ := p
        rw [run_search_ministry_eq_of_years proj ds tb kw m c s hys] at h
        simp only [Except.ok.injEq, Prod.mk.injEq] at h
        exact ⟨_, h.1.symm⟩

/-- Witness for C5: concrete runs of both builder variants end with their
respective ORDER BY clauses. -/
theorem c5_order_by_deterministic_witness :
    (∃ q ps, run_search "p" (budgetTableSpec "d" "t") "" [] [] [] [] []
        = Except.ok (q, ps) ∧
      ∃ r, q = r ++ " ORDER BY ministry, agency, category, fiscal_year_start") ∧
    (∃ q ps, run_search_ministry "p" "d" "t" "" [] [] [] []
        = Except.ok (q, ps) ∧
      ∃ r, q = r ++ " ORDER BY ministry, category, fiscal_year_start") := by
  have h1 := run_search_eq_of_years "p" (budgetTableSpec "d" "t") ""
    [] [] [] [] (rfl : yearsClauseStep [] = Except.ok ([], []))
  have h2 := run_search_ministry_eq_of_years "p" "d" "t" ""
    [] [] [] (rfl : yearsClauseStep [] = Except.ok ([], []))
  exact ⟨⟨_, _, h1, c5_order_by_deterministic.1 _ _ _ _ _ _ _ _ _ _ h1⟩,
         ⟨_, _, h2, c5_order_by_deterministic.2 _ _ _ _ _ _ _ _ _ _ h2⟩⟩

/-- C7: whenever the council filter is non-empty, the caller skips the
budget table entirely — it stores an empty result without ever invoking the
builder for that table — and invokes the builder for the council-document
table with the full council selection, never with the filter removed. -/
theorem c7_budget_skipped_on_council_filter (councils : List String)
    (h : councils ≠ []) :
    mainSearchPlan councils =
      [("予算", TabAction.skippedEmpty),
       ("会議資料", TabAction.search councils)] := by
  have he : councils.isEmpty = false := by
    simpa [List.isEmpty_iff] using h
  simp [mainSearchPlan, tabPlan, he]

/-- Witness for C7 at a concrete one-element council selection. -/
theorem c7_budget_skipped_on_council_filter_witness :
    mainSearchPlan ["中央教育審議会"] =
      [("予算", TabAction.skippedEmpty),
       ("会議資料", TabAction.search ["中央教育審議会"])] :=
  c7_budget_skipped_on_council_filter ["中央教育審議会"] (by simp)

/-- A string concatenation ends in a space when its right part does. -/
theorem ends_with_space_of_append (s t : String)
    (h : ∃ zs, t.toList = zs ++ [' ']) :
    ∃ zs, (s ++ t).toList = zs ++ [' '] := by
  obtain ⟨zs, hz⟩ := h
  exact ⟨s.toList ++ zs, by
    rw [show (s ++ t).toList = s.toList ++ t.toList from rfl, hz,
      List.append_assoc]⟩

/-- C6: with every filter dimension empty the builder binds no parameter and
produces the bare SELECT-FROM-ORDER BY query; in particular the query text
contains no WHERE clause at all (provided, as for every real table
configuration, that the table identifiers and column names themselves do not
contain the five-letter sequence WHERE). -/
theorem c6_empty_selection_no_where (proj : String) (ts : TableSpec)
    (hb : ¬ ("WHERE".toList <:+: (base_query proj ts).toList)) :
    ∃ q, run_search proj ts "" [] [] [] [] [] = .ok (q, []) ∧
      q = base_query proj ts ++
        " ORDER BY ministry, agency, category, fiscal_year_start" ∧
      ¬ ("WHERE".toList <:+: q.toList) := by
  have h : run_search proj ts "" [] [] [] [] [] =
      .ok (base_query proj ts ++
        " ORDER BY ministry, agency, category, fiscal_year_start", []) := by
    rw [run_search_eq_of_years proj ts "" [] [] [] []
      (rfl : yearsClauseStep [] = Except.ok ([], []))]
    rfl
  refine ⟨_, h, rfl, ?_⟩
  rw [show (base_query proj ts ++
      " ORDER BY ministry, agency, category, fiscal_year_start").toList =
      (base_query proj ts).toList ++
      (" ORDER BY ministry, agency, category, fiscal_year_start").toList
    from rfl]
  refine not_infix_append_of_sep hb ?_ ?_ ?_
  · decide
  · decide
  · exact ends_with_space_of_append _ _ ⟨['`', '\n', ' ', ' ', ' '], rfl⟩

/-- Witness for C6 at a concrete table configuration: the budget table with
placeholder dataset and table names. -/
theorem c6_empty_selection_no_where_witness :
    ∃ q, run_search "p" (budgetTableSpec "d" "t") "" [] [] [] [] [] =
        Except.ok (q, []) ∧
      q = base_query "p" (budgetTableSpec "d" "t") ++
        " ORDER BY ministry, agency, category, fiscal_year_start" ∧
      ¬ ("WHERE".toList <:+:
          (q.toList : List Char)) :=
  c6_empty_selection_no_where "p" (budgetTableSpec "d" "t") (by decide)

/-- C8: for a non-empty agency selection the query carries exactly one
agency membership clause, the bound array parameter named `agencies` holds
exactly the selected values, and the query text does not depend on the
selected values at all (any other non-empty selection yields the identical
text), so no selected value can appear in it other than by colliding with
the fixed skeleton. -/
theorem c8_agency_membership_exact {proj : String} {ts : TableSpec}
    {kw : String} {a c g s y : List String} {q : String}
    {ps : List QueryParameter}
    (h : run_search proj ts kw a c g s y = .ok (q, ps)) (ha : a ≠ []) :
    (∃ conds, q = base_query proj ts ++ " WHERE " ++
        String.intercalate " AND " conds ++
        " ORDER BY ministry, agency, category, fiscal_year_start" ∧
      conds.count "agency IN UNNEST(@agencies)" = 1) ∧
    ps.filter (fun p => p.name == "agencies") =
      [QueryParameter.arrayStr "agencies" a] ∧
    (∀ a2 : List String, a2 ≠ [] →
      ∃ ps2, run_search proj ts kw a2 c g s y = .ok (q, ps2)) := by
  have horig := h
  have hae : a.isEmpty = false := by simpa [List.isEmpty_iff] using ha
  cases hys : yearsClauseStep y with
  | error e =>
      cases e
      rw [run_search_error_of_years proj ts kw a c g s hys] at h
      exact absurd h (by simp)
  | ok p =>
      obtain ⟨wcy, qpy⟩ := p
      rw [run_search_eq_of_years proj ts kw a c g s hys] at h
      simp only [Except.ok.injEq, Prod.mk.injEq] at h
      obtain ⟨hq, hps⟩ := h
      refine ⟨?_, ?_, ?_⟩
      · rcases yearsClauseStep_ok hys with ⟨hye, hp⟩ | ⟨hye, iy, hmap, hp⟩ <;>
          (injection hp with hp1 hp2; subst hp1; subst hp2; subst hq) <;>
          cases hc : c.isEmpty <;> cases hg : g.isEmpty <;>
          cases hs2 : s.isEmpty <;> cases hk : kw.isEmpty <;>
          simp [hae, hc, hg, hs2, hk] <;>
          exact ⟨_, rfl, by decide⟩
      · rcases yearsClauseStep_ok hys with ⟨hye, hp⟩ | ⟨hye, iy, hmap, hp⟩ <;>
          (injection hp with hp1 hp2; subst hp1; subst hp2; subst hps) <;>
          cases hc : c.isEmpty <;> cases hg : g.isEmpty <;>
          cases hs2 : s.isEmpty <;> cases hk : kw.isEmpty <;>
          simp [hae, hc, hg, hs2, hk, List.filter, QueryParameter.name]
      · intro a2 ha2
        have ha2e : a2.isEmpty = false := by
          simpa [List.isEmpty_iff] using ha2
        have h2 := run_search_eq_of_years proj ts kw a2 c g s hys
        have hflags : flagsOf kw a2 c g s y = flagsOf kw a c g s y := by
          simp [flagsOf, hae, ha2e]
        have e2 := (run_search_ok_char h2).1
        rw [e2, hflags, ← (run_search_ok_char horig).1] at h2
        exact ⟨_, h2⟩

/-- Witness for C8 at a concrete run with two selected agencies. -/
theorem c8_agency_membership_exact_witness :
    ∃ q ps, run_search "p" (budgetTableSpec "d" "t") "" ["金融庁", "総務省"]
        [] [] [] [] = Except.ok (q, ps) ∧
      (∃ conds, q = base_query "p" (budgetTableSpec "d" "t") ++ " WHERE " ++
          String.intercalate " AND " conds ++
          " ORDER BY ministry, agency, category, fiscal_year_start" ∧
        conds.count "agency IN UNNEST(@agencies)" = 1) ∧
      ps.filter (fun p => p.name == "agencies") =
        [QueryParameter.arrayStr "agencies" ["金融庁", "総務省"]] := by
  have h := run_search_eq_of_years "p" (budgetTableSpec "d" "t") ""
    ["金融庁", "総務省"] [] [] [] (rfl : yearsClauseStep [] = Except.ok ([], []))
  have hc := c8_agency_membership_exact h (by simp)
  exact ⟨_, _, h, hc.1, hc.2.1⟩

/-- C9: the credential check fails closed — it reports an authenticated
user only when the lookup query returned a row of the auth table matching
the submitted id and password with `is_alive = TRUE`, and any exception
raised during the lookup yields `(False, False)`, never granting access or
admin rights. -/
theorem c9_credentials_fail_closed :
    (∀ (table : List AuthRow) (uid pw : String),
      (check_credentials_bigquery (.ok (authLookup table uid pw))).1 = true →
        ∃ r ∈ table, r.id = uid ∧ r.pw = pw ∧ r.is_alive = true) ∧
    (∀ e : String, check_credentials_bigquery (.error e) = (false, false)) := by
  constructor
  · intro table uid pw h
    cases hl : authLookup table uid pw with
    | nil => rw [hl] at h; simp [check_credentials_bigquery] at h
    | cons r rest =>
        have hr : r ∈ authLookup table uid pw := by
          rw [hl]; exact List.mem_cons_self r rest
        have hr2 : r ∈ table.filter
            (fun r => r.id = uid && r.pw = pw && r.is_alive) := by
          have := List.take_subset 1
            (table.filter (fun r => r.id = uid && r.pw = pw && r.is_alive))
          exact this hr
        rw [List.mem_filter] at hr2
        obtain ⟨hmem, hp⟩ := hr2
        simp only [Bool.and_eq_true, decide_eq_true_eq] at hp
        exact ⟨r, hmem, hp.1.1, hp.1.2, hp.2⟩
  · intro e
    rfl

/-- Witness for C9: a single-row auth table authenticates its own
credentials, and an exception outcome yields no access. -/
theorem c9_credentials_fail_closed_witness :
    (∃ r ∈ [AuthRow.mk "u1" "pw1" true (some true)],
      r.id = "u1" ∧ r.pw = "pw1" ∧ r.is_alive = true) ∧
    check_credentials_bigquery (.error "connection lost") = (false, false) :=
  ⟨c9_credentials_fail_closed.1 [AuthRow.mk "u1" "pw1" true (some true)]
     "u1" "pw1" (by decide),
   c9_credentials_fail_closed.2 "connection lost"⟩

/-- Every uppercase draw lands in the combined pool. -/
theorem mem_pool_up : ∀ i : Fin 26,
    ascii_uppercase.get (Fin.cast rfl i) ∈ passwordPool := by decide

/-- Every lowercase draw lands in the combined pool. -/
theorem mem_pool_low : ∀ i : Fin 26,
    ascii_lowercase.get (Fin.cast rfl i) ∈ passwordPool := by decide

/-- Every digit draw lands in the combined pool. -/
theorem mem_pool_dig : ∀ i : Fin 10,
    ascii_digits.get (Fin.cast rfl i) ∈ passwordPool := by decide

/-- Every pool draw lands in the pool. -/
theorem mem_pool_pool : ∀ i : Fin 62,
    passwordPool.get (Fin.cast rfl i) ∈ passwordPool := by decide

/-- Uppercase draws are uppercase letters. -/
theorem mem_up_up : ∀ i : Fin 26,
    ascii_uppercase.get (Fin.cast rfl i) ∈ ascii_uppercase := by decide

/-- Lowercase draws are lowercase letters. -/
theorem mem_low_low : ∀ i : Fin 26,
    ascii_lowercase.get (Fin.cast rfl i) ∈ ascii_lowercase := by decide

/-- Digit draws are digits. -/
theorem mem_dig_dig : ∀ i : Fin 10,
    ascii_digits.get (Fin.cast rfl i) ∈ ascii_digits := by decide

/-- C10: whatever the random draws and however the final shuffle permutes
the characters, the generated password has exactly 8 characters, each drawn
from ASCII uppercase letters, lowercase letters and digits, and it contains
at least one uppercase letter, at least one lowercase letter and at least
one digit. -/
theorem c10_password_shape (u : Fin 26) (l : Fin 26) (d : Fin 10)
    (rem : Fin 5 → Fin 62) (pw : List Char)
    (h : pw.Perm (generate_password u l d rem)) :
    pw.length = 8 ∧ (∀ ch ∈ pw, ch ∈ passwordPool) ∧
    (∃ ch ∈ pw, ch ∈ ascii_uppercase) ∧
    (∃ ch ∈ pw, ch ∈ ascii_lowercase) ∧
    (∃ ch ∈ pw, ch ∈ ascii_digits) := by
  have hlen : (generate_password u l d rem).length = 8 := by
    simp [generate_password]
  refine ⟨h.length_eq.trans hlen, ?_, ?_, ?_, ?_⟩
  · intro ch hch
    have hg : ch ∈ generate_password u l d rem := h.mem_iff.mp hch
    simp only [generate_password, List.mem_append, List.mem_cons,
      List.not_mem_nil, or_false, List.mem_map] at hg
    rcases hg with (rfl | rfl | rfl) | ⟨x, hx, rfl⟩
    · exact mem_pool_up u
    · exact mem_pool_low l
    · exact mem_pool_dig d
    · exact mem_pool_pool x
  · refine ⟨ascii_uppercase.get (Fin.cast rfl u), h.mem_iff.mpr ?_, mem_up_up u⟩
    simp [generate_password]
  · refine ⟨ascii_lowercase.get (Fin.cast rfl l), h.mem_iff.mpr ?_, mem_low_low l⟩
    simp [generate_password]
  · refine ⟨ascii_digits.get (Fin.cast rfl d), h.mem_iff.mpr ?_, mem_dig_dig d⟩
    simp [generate_password]

/-- Witness for C10 at concrete draws with the identity shuffle. -/
theorem c10_password_shape_witness :
    (generate_password 0 0 0 (fun _ => 0)).length = 8 ∧
    (∀ ch ∈ generate_password 0 0 0 (fun _ => 0), ch ∈ passwordPool) ∧
    (∃ ch ∈ generate_password 0 0 0 (fun _ => 0), ch ∈ ascii_uppercase) ∧
    (∃ ch ∈ generate_password 0 0 0 (fun _ => 0), ch ∈ ascii_lowercase) ∧
    (∃ ch ∈ generate_password 0 0 0 (fun _ => 0), ch ∈ ascii_digits) :=
  c10_password_shape 0 0 0 (fun _ => 0) _ (List.Perm.refl _)

end MinistrySearch
